/-
Verification of the TranslucentTB core loop (src/TranslucentTB/main.cpp)
via a shallow embedding in Lean 4.

Window handles and monitor handles are modelled as `Nat` (0 is the null
window handle `Window::NullWindow`).  The `run.taskbars` unordered map is
modelled as an association list from monitor handles to
(taskbar-surface handle, currently-assigned preset).  The five
`Config::*_APPEARANCE` globals are modelled by the enumeration
`PresetRef`, since the map stores non-owning pointers to them.
32-bit machine integers are modelled as `Nat`, with byte masks rendered
as byte-range arithmetic (div/mod by powers of two).
-/
import Mathlib

namespace TTB

/-- The five `Config::TASKBAR_APPEARANCE` globals that `main.cpp` stores
pointers to in `run.taskbars` (`REGULAR_APPEARANCE`, `MAXIMISED_APPEARANCE`,
`START_APPEARANCE`, `CORTANA_APPEARANCE`, `TIMELINE_APPEARANCE`). -/
inductive PresetRef
  | regular
  | maximised
  | start
  | cortana
  | timeline
deriving DecidableEq, Repr

/-- The `swca::ACCENT` enumeration values used by `SetWindowBlur`
(swcadata.hpp is not part of the examined sources; the members are taken
from their uses in main.cpp and the spec's blur-mode list). -/
inductive Accent
  | accentDisabled
  | accentEnableGradient
  | accentEnableTransparentGradient
  | accentEnableBlurbehind
  | accentEnableFluent
  | accentNormal
deriving DecidableEq, Repr

/-- One registry entry: (monitor handle, taskbar surface handle, preset). -/
abbrev RegEntry := Nat × Nat × PresetRef

/-- Shallow embedding of `run.taskbars`
(`std::unordered_map<HMONITOR, std::pair<Window, const TASKBAR_APPEARANCE *>>`)
as an association list with monitor handles as keys. -/
abbrev Registry := List RegEntry

/-- `run.taskbars.count(m) != 0`. -/
def containsKey : Registry → Nat → Bool
  | [], _ => false
  | e :: rest, m => e.1 == m || containsKey rest m

/-- The surface handle stored at key `m` (`run.taskbars.at(m).first`). -/
def lookupSurface : Registry → Nat → Option Nat
  | [], _ => none
  | e :: rest, m => if e.1 == m then some e.2.1 else lookupSurface rest m

/-- The preset stored at key `m` (`run.taskbars.at(m).second`). -/
def lookupPreset : Registry → Nat → Option PresetRef
  | [], _ => none
  | e :: rest, m => if e.1 == m then some e.2.2 else lookupPreset rest m

/-- `run.taskbars.at(m).second = &p` — overwrite the preset at key `m`,
leaving surface bindings and all other keys unchanged. -/
def setPreset (reg : Registry) (m : Nat) (p : PresetRef) : Registry :=
  reg.map (fun e => if e.1 == m then (e.1, e.2.1, p) else e)

/-- `for (auto &[_, pair] : run.taskbars) pair.second = &p;` — the
map-wide preset reset loops in `SetTaskbarBlur`. -/
def setAllPresets (reg : Registry) (p : PresetRef) : Registry :=
  reg.map (fun e => (e.1, e.2.1, p))

/-- `run.taskbars[m] = { w, &p }` — `operator[]` insert-or-overwrite. -/
def insertSurface (reg : Registry) (m : Nat) (w : Nat) (p : PresetRef) : Registry :=
  if containsKey reg m then
    reg.map (fun e => if e.1 == m then (m, w, p) else e)
  else
    reg ++ [(m, w, p)]

/-! ## The Compositor Dispatcher: `SetWindowBlur` -/

/-- Shallow embedding of the `ACCENTPOLICY` colour computation
`(color & 0xFF00FF00) + ((color & 0x00FF0000) >> 16) + ((color & 0x000000FF) << 16)`
(main.cpp, the `policy` initializer in `SetWindowBlur`).  The byte masks
are rendered as byte-range arithmetic on `Nat`: the mask `0xFF00FF00`
keeps the alpha and green bytes, `(c & 0x00FF0000) >> 16` extracts the
red byte, `(c & 0x000000FF) << 16` moves the blue byte up. -/
def swapColor (color : Nat) : Nat :=
  (color / 2 ^ 24 % 2 ^ 8 * 2 ^ 24 + color / 2 ^ 8 % 2 ^ 8 * 2 ^ 8)
    + color / 2 ^ 16 % 2 ^ 8
    + color % 2 ^ 8 * 2 ^ 16

/-- The dispatcher's memoization table
`static std::unordered_map<Window, bool> is_normal;`. -/
abbrev Memo := List (Nat × Bool)

def memoLookup : Memo → Nat → Option Bool
  | [], _ => none
  | e :: rest, w => if e.1 == w then some e.2 else memoLookup rest w

/-- `is_normal[w] = b` — `operator[]` insert-or-overwrite. -/
def memoSet : Memo → Nat → Bool → Memo
  | [], w, b => [(w, b)]
  | e :: rest, w, b => if e.1 == w then (w, b) :: rest else e :: memoSet rest w b

/-- Observable side effects of one `SetWindowBlur` call: the
`WM_THEMECHANGED` message send, and the native
`SetWindowCompositionAttribute` call with the final policy colour. -/
inductive Effect
  | themeChanged (w : Nat)
  | nativeCall (w : Nat) (accent : Accent) (color : Nat)
deriving DecidableEq, Repr

/-- Shallow embedding of `SetWindowBlur(window, appearance, color)`.
`hasSWCA` models the `user32::SetWindowCompositionAttribute` capability
pointer (null on old OS versions → whole function is a no-op).  Returns
the updated memoization table and the list of emitted effects. -/
def setWindowBlur (hasSWCA : Bool) (memo : Memo) (window : Nat)
    (accent : Accent) (color : Nat) : Memo × List Effect :=
  if hasSWCA then
    -- policy.nColor after the ARGB→ABGR channel swap
    let nColor := swapColor color
    if accent = Accent.accentNormal then
      -- send WM_THEMECHANGED only when is_normal does not record `true`
      if memoLookup memo window ≠ some true then
        (memoSet memo window true, [Effect.themeChanged window])
      else
        (memo, [])
    else
      -- Fluent mode doesn't like a completely 0 opacity
      let nColor' :=
        if accent = Accent.accentEnableFluent ∧ nColor / 2 ^ 24 = 0 then
          2 ^ 24 + nColor % 2 ^ 24
        else
          nColor
      (memoSet memo window false, [Effect.nativeCall window accent nColor'])
  else
    (memo, [])

def countTheme (l : List Effect) : Nat :=
  (l.filter (fun e => match e with | Effect.themeChanged _ => true | _ => false)).length

def countNative (l : List Effect) : Nat :=
  (l.filter (fun e => match e with | Effect.nativeCall _ _ _ => true | _ => false)).length

/-! ## Configuration, environment and signals -/

/-- `Config::PEEK` (`enum class PEEK { Disabled, Enabled, Dynamic }`). -/
inductive PeekMode
  | disabled
  | enabled
  | dynamic
deriving DecidableEq, Repr

/-- The `Config::*` feature toggles read by the core loop.
`timeline_av` is the cached `win32::IsAtLeastBuild(MIN_FLUENT_BUILD)`
OS-build check selecting the Timeline detection strategy. -/
structure Cfg where
  maximised_enabled : Bool
  peek : PeekMode
  peek_only_main : Bool
  cortana_enabled : Bool
  start_enabled : Bool
  timeline_enabled : Bool
  regular_on_peek : Bool
  timeline_av : Bool
deriving DecidableEq, Repr

/-- Per-window attribute queries supplied by the native windowing layer
(`Window::visible/state/get_attribute(DWMWA_CLOAKED)/on_current_desktop/
monitor/filename/classname` and `Blacklist::IsBlacklisted`), modelled as
total functions on window handles.  `coreWindowClass` is the
`CORE_WINDOW` class-name constant.  `time` models the ambient wall
clock, which the decision pass never reads; it is included so that
independence from it is a provable statement rather than a convention. -/
structure Env where
  visible : Nat → Bool
  maximized : Nat → Bool       -- window.state() == SW_MAXIMIZE
  cloaked : Nat → Bool         -- window.get_attribute<BOOL>(DWMWA_CLOAKED)
  blacklisted : Nat → Bool     -- Blacklist::IsBlacklisted(window)
  onCurrentDesktop : Nat → Bool
  monitor : Nat → Nat
  filename : Nat → String
  classname : Nat → String
  coreWindowClass : String
  time : Nat

/-- The inputs of one recompute pass of `SetTaskbarBlur`: the
asynchronous flags, the foreground window (`0` = `Window::NullWindow`),
the value of the global `hwnd` variable captured by
`const Window window(hwnd);` at function entry, the `EnumWindows`
traversal order, and `run.main_taskbar`. -/
structure Signals where
  peek_active : Bool
  start_opened : Bool
  fg : Nat
  hwnd0 : Nat
  enumOrder : List Nat
  mainTaskbar : Nat
deriving DecidableEq, Repr

/-- ASCII lower-casing of one character code. -/
def lowerCode (n : Nat) : Nat :=
  if 65 ≤ n ∧ n ≤ 90 then n + 32 else n

/-- Modelled from the spec: `Util::IgnoreCaseStringEquals` (util.hpp is
not part of the examined sources) — case-insensitive string equality,
realised as equality of the case-folded character codes. -/
def ignoreCaseEquals (a b : String) : Bool :=
  a.data.map (fun c => lowerCode c.toNat) == b.data.map (fun c => lowerCode c.toNat)

/-- The classification predicate shared by `EnumWindowsProcess` and the
foreground block of `SetTaskbarBlur`:
`window.visible() && window.state() == SW_MAXIMIZE &&
!window.get_attribute<BOOL>(DWMWA_CLOAKED) && !Blacklist::IsBlacklisted(window) &&
window.on_current_desktop() && run.taskbars.count(window.monitor()) != 0`. -/
def qualifies (env : Env) (reg : Registry) (w : Nat) : Bool :=
  env.visible w && env.maximized w && !env.cloaked w
    && !env.blacklisted w && env.onCurrentDesktop w
    && containsKey reg (env.monitor w)

/-- Mutable state threaded through the `EnumWindows` sweep:
(`run.taskbars`, `run.should_show_peek`, global `hwnd`). -/
abbrev ScanState := Registry × Bool × Nat

/-- Shallow embedding of `EnumWindowsProcess` for one enumerated window
`w`.  The global `hwnd` is overwritten unconditionally; the body then
classifies `w` and, when it qualifies, applies the Maximised preset
(when enabled) and the dynamic-peek flag update. -/
def enumStep (cfg : Cfg) (env : Env) (main : Nat) (st : ScanState) (w : Nat) :
    ScanState :=
  let reg := st.1
  let peek := st.2.1
  if qualifies env reg w then
    let reg' :=
      if cfg.maximised_enabled then setPreset reg (env.monitor w) PresetRef.maximised
      else reg
    let peek' :=
      if cfg.peek = PeekMode.dynamic then
        if cfg.peek_only_main then
          if lookupSurface reg (env.monitor w) = some main then true else peek
        else true
      else peek
    (reg', peek', w)
  else
    (reg, peek, w)

/-- `Util::IgnoreCaseStringEquals(*title, L"SearchUI.exe") ||
Util::IgnoreCaseStringEquals(*title, L"SearchApp.exe")`. -/
def isSearchExe (title : String) : Bool :=
  ignoreCaseEquals title "SearchUI.exe" || ignoreCaseEquals title "SearchApp.exe"

/-- The task-view/Timeline foreground signature test in `SetTaskbarBlur`:
on builds at least `MIN_FLUENT_BUILD`, class name equals `CORE_WINDOW`
and the owning process is `Explorer.exe` (case-insensitive); on older
builds, class name equals `MultitaskingViewFrame`. -/
def timelineMatch (cfg : Cfg) (env : Env) (w : Nat) : Bool :=
  if cfg.timeline_av then
    env.classname w == env.coreWindowClass
      && ignoreCaseEquals (env.filename w) "Explorer.exe"
  else
    env.classname w == "MultitaskingViewFrame"

/-- The `EnumWindows` sweep of the recompute pass: run only when the
maximized feature or dynamic peek needs it
(`if (Config::MAXIMISED_ENABLED || Config::PEEK == PEEK::Dynamic) EnumWindows(...)`). -/
def scanPhase (cfg : Cfg) (env : Env) (sig : Signals) (reg1 : Registry)
    (peek0 : Bool) : ScanState :=
  if cfg.maximised_enabled || cfg.peek = PeekMode.dynamic then
    sig.enumOrder.foldl (enumStep cfg env sig.mainTaskbar) (reg1, peek0, sig.hwnd0)
  else
    (reg1, peek0, sig.hwnd0)

/-- The foreground Start/Cortana block of `SetTaskbarBlur`.  Note that the
maximized/visible/cloak/blacklist/desktop qualification test is evaluated on
`window` — the value the global `hwnd` had at function entry — not on
`fg_window`. -/
def fgPhase (cfg : Cfg) (env : Env) (sig : Signals) (reg2 : Registry) : Registry :=
  if sig.fg != 0 && containsKey reg2 (env.monitor sig.fg) then
    if qualifies env reg2 sig.hwnd0 then
      let fgm := env.monitor sig.fg
      let regA :=
        if cfg.cortana_enabled && !sig.start_opened && !env.cloaked sig.fg then
          if isSearchExe (env.filename sig.fg) then
            setPreset reg2 fgm PresetRef.maximised
          else reg2
        else
          if isSearchExe (env.filename sig.fg) then
            setPreset reg2 fgm PresetRef.cortana
          else reg2
      if cfg.start_enabled && sig.start_opened then
        setPreset regA fgm PresetRef.maximised
      else
        setPreset regA fgm PresetRef.start
    else reg2
  else reg2

/-- The peek override of `SetTaskbarBlur`
(source comment: put this between Start/Cortana and Task view/Timeline). -/
def peekPhase (cfg : Cfg) (sig : Signals) (reg3 : Registry) : Registry :=
  if cfg.maximised_enabled && cfg.regular_on_peek && sig.peek_active then
    setAllPresets reg3 PresetRef.regular
  else reg3

/-- The Timeline/Task-view override of `SetTaskbarBlur`, evaluated last. -/
def timelinePhase (cfg : Cfg) (env : Env) (sig : Signals) (reg4 : Registry) :
    Registry :=
  if sig.fg ≠ 0 then
    if cfg.timeline_enabled && timelineMatch cfg env sig.fg then
      setAllPresets reg4 PresetRef.timeline
    else reg4
  else reg4

/-- Shallow embedding of the recompute body of `SetTaskbarBlur` (the
`counter >= 10` branch): reset `should_show_peek` and every preset to
Regular, run the `EnumWindows` sweep, then apply the foreground
Start/Cortana block, the peek override and the Timeline override, in source
order.  Returns the updated registry and `should_show_peek`. -/
def decide (cfg : Cfg) (env : Env) (sig : Signals) (reg0 : Registry) :
    Registry × Bool :=
  -- run.should_show_peek = (Config::PEEK == PEEK::Enabled);
  let peek0 := cfg.peek = PeekMode.enabled
  -- reset taskbar state
  let reg1 := setAllPresets reg0 PresetRef.regular
  let st2 := scanPhase cfg env sig reg1 peek0
  (timelinePhase cfg env sig (peekPhase cfg sig (fgPhase cfg env sig st2.1)),
    st2.2.1)

/-! ## The Monitor Registry rebuild: `RefreshHandles` -/

/-- Shallow embedding of `RefreshHandles`.  The old map is cleared, the
primary taskbar found by `Window::Find(L"Shell_TrayWnd")` is inserted
keyed by its monitor, then every `Shell_SecondaryTrayWnd` surface is
inserted keyed by its monitor, each with preset `REGULAR_APPEARANCE`.
`main` is the handle `Window::Find` returned (`0` models the null window
it yields when no primary taskbar exists; `Window::monitor()` — window.hpp
is not part of the examined sources — is modelled from the spec's native
interface as a total `MonitorFromWindow`-style query, defined on the null
handle too).  The old registry is an argument only to show the rebuild is
wholesale: it is discarded by the initial `clear()`. -/
def refreshHandles (env : Env) (_old : Registry) (main : Nat)
    (secondaries : List Nat) : Registry :=
  let cleared : Registry := []
  let reg1 := insertSurface cleared (env.monitor main) main PresetRef.regular
  secondaries.foldl
    (fun r s => insertSurface r (env.monitor s) s PresetRef.regular) reg1

example : swapColor 0x11223344 = 0x11443322 := by decide
example : setWindowBlur true [] 7 Accent.accentEnableFluent 0x000000FF
    = ([(7, false)], [Effect.nativeCall 7 Accent.accentEnableFluent 0x01FF0000]) := by decide
example : setWindowBlur true [] 7 Accent.accentNormal 0
    = ([(7, true)], [Effect.themeChanged 7]) := by decide
example : setWindowBlur true [(7, true)] 7 Accent.accentNormal 0 = ([(7, true)], []) := by decide

/-! ## Helper lemmas about the registry operations -/

theorem setPreset_cons (e : RegEntry) (rest : Registry) (m : Nat) (p : PresetRef) :
    setPreset (e :: rest) m p
      = (if e.1 == m then (e.1, e.2.1, p) else e) :: setPreset rest m p := rfl

theorem setAllPresets_cons (e : RegEntry) (rest : Registry) (p : PresetRef) :
    setAllPresets (e :: rest) p = (e.1, e.2.1, p) :: setAllPresets rest p := rfl

theorem containsKey_cons (e : RegEntry) (rest : Registry) (m : Nat) :
    containsKey (e :: rest) m = (e.1 == m || containsKey rest m) := rfl

theorem lookupPreset_cons (e : RegEntry) (rest : Registry) (m : Nat) :
    lookupPreset (e :: rest) m
      = if e.1 == m then some e.2.2 else lookupPreset rest m := rfl

theorem containsKey_setPreset (reg : Registry) (m : Nat) (p : PresetRef) (m' : Nat) :
    containsKey (setPreset reg m p) m' = containsKey reg m' := by
  induction reg with
  | nil => rfl
  | cons e rest ih =>
    rw [setPreset_cons, containsKey_cons, containsKey_cons, ih]
    by_cases he : e.1 = m <;> simp [he]

theorem containsKey_setAllPresets (reg : Registry) (p : PresetRef) (m' : Nat) :
    containsKey (setAllPresets reg p) m' = containsKey reg m' := by
  induction reg with
  | nil => rfl
  | cons e rest ih =>
    rw [setAllPresets_cons, containsKey_cons, containsKey_cons, ih]

theorem lookupPreset_setPreset_self (reg : Registry) (m : Nat) (p : PresetRef)
    (h : containsKey reg m = true) :
    lookupPreset (setPreset reg m p) m = some p := by
  induction reg with
  | nil => simp [containsKey] at h
  | cons e rest ih =>
    by_cases he : e.1 = m
    · simp [setPreset_cons, lookupPreset_cons, he]
    · have h' : containsKey rest m = true := by
        simpa [containsKey_cons, he] using h
      simp [setPreset_cons, lookupPreset_cons, he, ih h']

theorem lookupPreset_setPreset_other (reg : Registry) (m : Nat) (p : PresetRef)
    (m' : Nat) (h : m' ≠ m) :
    lookupPreset (setPreset reg m p) m' = lookupPreset reg m' := by
  induction reg with
  | nil => rfl
  | cons e rest ih =>
    by_cases he : e.1 = m
    · have hne : ¬(m = m') := fun hmm => h hmm.symm
      simp [setPreset_cons, lookupPreset_cons, he, hne, ih]
    · by_cases he' : e.1 = m' <;>
        simp [setPreset_cons, lookupPreset_cons, he, he', h, ih]

theorem lookupPreset_setAllPresets (reg : Registry) (p : PresetRef) (m : Nat) :
    lookupPreset (setAllPresets reg p) m
      = if containsKey reg m then some p else none := by
  induction reg with
  | nil => rfl
  | cons e rest ih =>
    by_cases he : e.1 = m <;>
      simp [setAllPresets_cons, lookupPreset_cons, containsKey_cons, he, ih]


theorem preset_mem_setAllPresets (reg : Registry) (p : PresetRef) (e : RegEntry)
    (h : e ∈ setAllPresets reg p) : e.2.2 = p := by
  simp only [setAllPresets, List.mem_map] at h
  obtain ⟨a, _, rfl⟩ := h
  rfl

theorem containsKey_enumStep (cfg : Cfg) (env : Env) (main : Nat)
    (st : ScanState) (w : Nat) (m : Nat) :
    containsKey (enumStep cfg env main st w).1 m = containsKey st.1 m := by
  unfold enumStep
  by_cases hq : qualifies env st.1 w <;>
    by_cases hme : cfg.maximised_enabled <;>
      simp [hq, hme, containsKey_setPreset]

theorem containsKey_foldl_enumStep (cfg : Cfg) (env : Env) (main : Nat)
    (l : List Nat) (st : ScanState) (m : Nat) :
    containsKey (l.foldl (enumStep cfg env main) st).1 m = containsKey st.1 m := by
  induction l generalizing st with
  | nil => rfl
  | cons w rest ih => simp [List.foldl, ih, containsKey_enumStep]

theorem qualifies_congr_keys (env : Env) (reg reg' : Registry) (w : Nat)
    (h : ∀ m, containsKey reg' m = containsKey reg m) :
    qualifies env reg' w = qualifies env reg w := by
  simp [qualifies, h]

theorem containsKey_append (r1 r2 : Registry) (m : Nat) :
    containsKey (r1 ++ r2) m = (containsKey r1 m || containsKey r2 m) := by
  induction r1 with
  | nil => simp [containsKey]
  | cons e rest ih =>
    simp [containsKey_cons, List.cons_append, ih, Bool.or_assoc]

theorem containsKey_replaceKey (reg : Registry) (m w : Nat) (p : PresetRef)
    (m' : Nat) :
    containsKey (reg.map (fun e => if e.1 == m then (m, w, p) else e)) m'
      = containsKey reg m' := by
  induction reg with
  | nil => rfl
  | cons e rest ih =>
    rw [List.map_cons, containsKey_cons, containsKey_cons, ih]
    by_cases he : e.1 = m <;> simp [he]

theorem containsKey_insertSurface (reg : Registry) (m w : Nat) (p : PresetRef)
    (m' : Nat) :
    containsKey (insertSurface reg m w p) m' = (m == m' || containsKey reg m') := by
  unfold insertSurface
  by_cases hc : containsKey reg m
  · rw [if_pos hc, containsKey_replaceKey]
    by_cases hm' : m = m'
    · subst hm'; simp [hc]
    · simp [hm']
  · rw [if_neg hc, containsKey_append]
    rw [containsKey_cons]
    show (containsKey reg m' || (m == m' || containsKey [] m')) = _
    cases h1 : containsKey reg m' <;> cases h2 : (m == m') <;>
      simp [containsKey, h1, h2]

theorem entries_insertSurface (reg : Registry) (m w : Nat) (p : PresetRef)
    (e : RegEntry) (h : e ∈ insertSurface reg m w p) :
    e = (m, w, p) ∨ e ∈ reg := by
  unfold insertSurface at h
  by_cases hc : containsKey reg m
  · rw [if_pos hc] at h
    rw [List.mem_map] at h
    obtain ⟨a, ha, rfl⟩ := h
    by_cases he : a.1 = m
    · simp [he]
    · simp [he]
      exact Or.inr ha
  · rw [if_neg hc] at h
    rcases List.mem_append.mp h with h | h
    · exact Or.inr h
    · rw [List.mem_singleton] at h
      exact Or.inl h

theorem entries_refreshHandles (env : Env) (old : Registry) (main : Nat)
    (secondaries : List Nat) (e : RegEntry)
    (h : e ∈ refreshHandles env old main secondaries) :
    e.2.2 = PresetRef.regular ∧ e.2.1 ∈ main :: secondaries
      ∧ e.1 = env.monitor e.2.1 := by
  unfold refreshHandles at h
  have base :
      ∀ (l : List Nat) (acc : Registry),
        (∀ s ∈ l, s ∈ secondaries) →
        (∀ f : RegEntry, f ∈ acc →
          f.2.2 = PresetRef.regular ∧ f.2.1 ∈ main :: secondaries
            ∧ f.1 = env.monitor f.2.1) →
        ∀ f : RegEntry,
          f ∈ l.foldl (fun r s => insertSurface r (env.monitor s) s PresetRef.regular) acc →
          f.2.2 = PresetRef.regular ∧ f.2.1 ∈ main :: secondaries
            ∧ f.1 = env.monitor f.2.1 := by
    intro l
    induction l with
    | nil => intro acc _ hacc f hf; exact hacc f hf
    | cons s rest ih =>
      intro acc hl hacc f hf
      refine ih _ (fun t ht => hl t (List.mem_cons_of_mem s ht)) ?_ f hf
      intro g hg
      rcases entries_insertSurface _ _ _ _ _ hg with rfl | hgacc
      · exact ⟨rfl, List.mem_cons_of_mem main (hl s (List.mem_cons_self s rest)), rfl⟩
      · exact hacc g hgacc
  refine base secondaries _ (fun t ht => ht) ?_ e h
  intro f hf
  rcases entries_insertSurface _ _ _ _ _ hf with rfl | hcontra
  · exact ⟨rfl, List.mem_cons_self main secondaries, rfl⟩
  · simp at hcontra

theorem containsKey_refreshHandles (env : Env) (old : Registry) (main : Nat)
    (secondaries : List Nat) (m : Nat) :
    containsKey (refreshHandles env old main secondaries) m
      = (main :: secondaries).any (fun s => env.monitor s == m) := by
  unfold refreshHandles
  have base :
      ∀ (l : List Nat) (acc : Registry),
        containsKey
            (l.foldl (fun r s => insertSurface r (env.monitor s) s PresetRef.regular) acc) m
          = (containsKey acc m || l.any (fun s => env.monitor s == m)) := by
    intro l
    induction l with
    | nil => simp
    | cons s rest ih =>
      intro acc
      simp [List.foldl, ih, containsKey_insertSurface, Bool.or_assoc, Bool.or_comm,
        Bool.or_left_comm]
  rw [base]
  simp [containsKey_insertSurface, containsKey]

/-! ## Helper lemma about the memoization table -/

theorem memoLookup_memoSet_self (memo : Memo) (w : Nat) (b : Bool) :
    memoLookup (memoSet memo w b) w = some b := by
  induction memo with
  | nil => simp [memoSet, memoLookup]
  | cons e rest ih =>
    by_cases he : e.1 = w <;> simp [memoSet, memoLookup, he, ih]

/-! ## Arithmetic facts about the colour swap -/

theorem swapColor_div_24 (c : Nat) :
    swapColor c / 2 ^ 24 = c / 2 ^ 24 % 2 ^ 8 := by
  unfold swapColor
  omega

theorem byte0_of_bytes (R G B : Nat) (hR : R < 256) (hG : G < 256) (hB : B < 256) :
    (R * 2 ^ 16 + G * 2 ^ 8 + B) % 2 ^ 8 = B := by
  omega

theorem byte1_of_bytes (R G B : Nat) (hR : R < 256) (hG : G < 256) (hB : B < 256) :
    (R * 2 ^ 16 + G * 2 ^ 8 + B) / 2 ^ 8 % 2 ^ 8 = G := by
  omega

theorem byte2_of_bytes (R G B : Nat) (hR : R < 256) (hG : G < 256) (hB : B < 256) :
    (R * 2 ^ 16 + G * 2 ^ 8 + B) / 2 ^ 16 % 2 ^ 8 = R := by
  omega

theorem clamp_mod24 (R G B : Nat) (hR : R < 256) (hG : G < 256) (hB : B < 256) :
    (B * 2 ^ 16 + G * 2 ^ 8 + R) % 2 ^ 24 = B * 2 ^ 16 + G * 2 ^ 8 + R := by
  omega

theorem clamp_div16 (R G B : Nat) (hR : R < 256) (hG : G < 256) (hB : B < 256) :
    (2 ^ 24 + (B * 2 ^ 16 + G * 2 ^ 8 + R)) / 2 ^ 16 = 2 ^ 8 + B := by
  omega

theorem clamp_div8 (R G B : Nat) (hR : R < 256) (hG : G < 256) (hB : B < 256) :
    (2 ^ 24 + (B * 2 ^ 16 + G * 2 ^ 8 + R)) / 2 ^ 8
      = 2 ^ 16 + B * 2 ^ 8 + G := by
  omega

theorem swapColor_bytes (a r g b : Nat)
    (ha : a < 2 ^ 8) (hr : r < 2 ^ 8) (hg : g < 2 ^ 8) (hb : b < 2 ^ 8) :
    swapColor (a * 2 ^ 24 + r * 2 ^ 16 + g * 2 ^ 8 + b)
      = a * 2 ^ 24 + b * 2 ^ 16 + g * 2 ^ 8 + r := by
  unfold swapColor
  omega

/-! ## Claim theorems about the Compositor Dispatcher -/

/-- C6: calling the Dispatcher twice in a row with mode Normal on the same
surface issues at most one theme-refresh notification and no native attribute
call (hence at most one); the notification is emitted exactly when the call
can act (the capability is present) and the memoization table does not record
Normal as last-applied for that surface; and the second consecutive Normal
call emits no effect at all. -/
theorem normal_memoized_twice (hasSWCA : Bool) (memo : Memo) (w c1 c2 : Nat) :
    countTheme ((setWindowBlur hasSWCA memo w Accent.accentNormal c1).2
        ++ (setWindowBlur hasSWCA (setWindowBlur hasSWCA memo w Accent.accentNormal c1).1
              w Accent.accentNormal c2).2) ≤ 1
    ∧ countNative ((setWindowBlur hasSWCA memo w Accent.accentNormal c1).2
        ++ (setWindowBlur hasSWCA (setWindowBlur hasSWCA memo w Accent.accentNormal c1).1
              w Accent.accentNormal c2).2) = 0
    ∧ ((setWindowBlur hasSWCA memo w Accent.accentNormal c1).2 = [Effect.themeChanged w]
        ↔ hasSWCA = true ∧ memoLookup memo w ≠ some true)
    ∧ (setWindowBlur hasSWCA (setWindowBlur hasSWCA memo w Accent.accentNormal c1).1
          w Accent.accentNormal c2).2 = [] := by
  cases hasSWCA with
  | false => simp [setWindowBlur, countTheme, countNative]
  | true =>
    by_cases hm : memoLookup memo w = some true
    · simp [setWindowBlur, hm, countTheme, countNative]
    · simp [setWindowBlur, hm, memoLookup_memoSet_self, countTheme, countNative]

/-- C6 witness: the memoization theorem applied at a concrete surface — the
second consecutive Normal call emits nothing. -/
theorem normal_memoized_twice_witness :
    (setWindowBlur true (setWindowBlur true [] 3 Accent.accentNormal 0).1 3
        Accent.accentNormal 0).2 = [] :=
  (normal_memoized_twice true [] 3 0 0).2.2.2

/-- C7: when the Dispatcher applies a Fluent-mode preset whose colour has
alpha byte 0x00, the colour actually passed to the native attribute call has
alpha byte 0x01 while the other channels are exactly those of the (unclamped)
channel-swapped colour — i.e. green preserved, red and blue swapped; and in
Fluent mode the applied alpha byte is never literal zero. -/
theorem fluent_zero_alpha_clamped (memo : Memo) (w color : Nat)
    (hc : color < 2 ^ 32) :
    ∃ c', (setWindowBlur true memo w Accent.accentEnableFluent color).2
        = [Effect.nativeCall w Accent.accentEnableFluent c']
      ∧ c' / 2 ^ 24 ≠ 0
      ∧ (color / 2 ^ 24 = 0 →
          c' / 2 ^ 24 = 1
          ∧ c' % 2 ^ 24 = swapColor color % 2 ^ 24
          ∧ c' / 2 ^ 16 % 2 ^ 8 = color % 2 ^ 8
          ∧ c' / 2 ^ 8 % 2 ^ 8 = color / 2 ^ 8 % 2 ^ 8
          ∧ c' % 2 ^ 8 = color / 2 ^ 16 % 2 ^ 8) := by
  by_cases hz : swapColor color / 2 ^ 24 = 0
  · have hz' : swapColor color / 16777216 = 0 := by omega
    refine ⟨2 ^ 24 + swapColor color % 2 ^ 24, ?_, ?_, ?_⟩
    · simp [setWindowBlur, hz']
    · have : swapColor color % 2 ^ 24 < 2 ^ 24 := Nat.mod_lt _ (by norm_num)
      omega
    · intro h0
      obtain ⟨R8, G8, B8, hR, hG, hB, hcolor⟩ :
          ∃ R8 G8 B8, R8 < 256 ∧ G8 < 256 ∧ B8 < 256
            ∧ color = R8 * 2 ^ 16 + G8 * 2 ^ 8 + B8 :=
        ⟨color / 2 ^ 16 % 256, color / 2 ^ 8 % 256, color % 256,
          by omega, by omega, by omega, by omega⟩
      subst hcolor
      have hx : swapColor (R8 * 2 ^ 16 + G8 * 2 ^ 8 + B8)
          = B8 * 2 ^ 16 + G8 * 2 ^ 8 + R8 := by
        simp only [swapColor]
        omega
      rw [hx, clamp_mod24 R8 G8 B8 hR hG hB, byte0_of_bytes R8 G8 B8 hR hG hB,
        byte1_of_bytes R8 G8 B8 hR hG hB, byte2_of_bytes R8 G8 B8 hR hG hB,
        clamp_div16 R8 G8 B8 hR hG hB, clamp_div8 R8 G8 B8 hR hG hB]
      refine ⟨by omega, by omega, by omega, by omega, by omega⟩
  · have hz' : ¬swapColor color / 16777216 = 0 := by omega
    refine ⟨swapColor color, ?_, hz, ?_⟩
    · simp [setWindowBlur, hz']
    · intro h0
      exfalso
      apply hz
      rw [swapColor_div_24]
      omega

/-- C7 witness: the clamp theorem applied at the concrete Fluent colour
`0x0000FF00` (alpha byte zero). -/
theorem fluent_zero_alpha_clamped_witness :
    ∃ c', (setWindowBlur true [] 3 Accent.accentEnableFluent 0x0000FF00).2
        = [Effect.nativeCall 3 Accent.accentEnableFluent c']
      ∧ c' / 2 ^ 24 ≠ 0
      ∧ ((0x0000FF00 : Nat) / 2 ^ 24 = 0 →
          c' / 2 ^ 24 = 1
          ∧ c' % 2 ^ 24 = swapColor 0x0000FF00 % 2 ^ 24
          ∧ c' / 2 ^ 16 % 2 ^ 8 = (0x0000FF00 : Nat) % 2 ^ 8
          ∧ c' / 2 ^ 8 % 2 ^ 8 = (0x0000FF00 : Nat) / 2 ^ 8 % 2 ^ 8
          ∧ c' % 2 ^ 8 = (0x0000FF00 : Nat) / 2 ^ 16 % 2 ^ 8) :=
  fluent_zero_alpha_clamped [] 3 0x0000FF00 (by decide)

/-- C10 counterexample: for the Fluent-mode call with input colour
`0x000000FF` (alpha byte 0x00), the colour passed to the native composition
call is `0x01FF0000`, whose alpha byte is 1 while the input's alpha byte is
0 — so the alpha byte is not always preserved as the claim states. -/
theorem swap_alpha_counterexample :
    (setWindowBlur true [] 7 Accent.accentEnableFluent 0x000000FF).2
      = [Effect.nativeCall 7 Accent.accentEnableFluent 0x01FF0000]
    ∧ (0x01FF0000 : Nat) / 2 ^ 24 = 1
    ∧ (0x000000FF : Nat) / 2 ^ 24 = 0 := by decide

/-- C10 (amended): for every 32-bit ARGB input colour, written as bytes
`a,r,g,b`, and every blur mode other than Normal, the colour passed to the
native composition call is the input with the red and blue bytes swapped
(alpha and green preserved) — except in the single case Fluent mode with
alpha byte 0, where the alpha byte of the passed colour is 1 instead of 0
and the other three channels are still the swapped ones. -/
theorem swap_channels_amended (memo : Memo) (w : Nat) (accent : Accent)
    (a r g b : Nat) (ha : a < 2 ^ 8) (hr : r < 2 ^ 8) (hg : g < 2 ^ 8)
    (hb : b < 2 ^ 8) (hacc : accent ≠ Accent.accentNormal) :
    (¬(accent = Accent.accentEnableFluent ∧ a = 0) →
        (setWindowBlur true memo w accent
            (a * 2 ^ 24 + r * 2 ^ 16 + g * 2 ^ 8 + b)).2
          = [Effect.nativeCall w accent (a * 2 ^ 24 + b * 2 ^ 16 + g * 2 ^ 8 + r)])
    ∧ (accent = Accent.accentEnableFluent → a = 0 →
        (setWindowBlur true memo w accent
            (a * 2 ^ 24 + r * 2 ^ 16 + g * 2 ^ 8 + b)).2
          = [Effect.nativeCall w accent
              (2 ^ 24 + (b * 2 ^ 16 + g * 2 ^ 8 + r))]) := by
  have hswap : swapColor (a * 16777216 + r * 65536 + g * 256 + b)
      = a * 16777216 + b * 65536 + g * 256 + r := by
    unfold swapColor
    omega
  constructor
  · intro hne
    by_cases hf : accent = Accent.accentEnableFluent
    · have ha0 : a ≠ 0 := fun h => hne ⟨hf, h⟩
      have hz : ¬((a * 16777216 + b * 65536 + g * 256 + r) / 16777216 = 0) := by
        omega
      subst hf
      simp [setWindowBlur, hswap, hz]
    · simp [setWindowBlur, hacc, hswap, hf]
  · intro hf ha0
    subst hf
    have hz : swapColor (a * 16777216 + r * 65536 + g * 256 + b) / 16777216 = 0 := by
      rw [hswap]
      omega
    have hclamp :
        16777216 + swapColor (a * 16777216 + r * 65536 + g * 256 + b) % 16777216
          = 16777216 + (b * 65536 + g * 256 + r) := by
      rw [hswap]
      omega
    simp [setWindowBlur, hz, hclamp]

/-- C10 witness: the amended swap theorem applied at the concrete colour
`0x11223344` with the BlurBehind mode. -/
theorem swap_channels_amended_witness :
    (setWindowBlur true [] 9 Accent.accentEnableBlurbehind
        (0x11 * 2 ^ 24 + 0x22 * 2 ^ 16 + 0x33 * 2 ^ 8 + 0x44)).2
      = [Effect.nativeCall 9 Accent.accentEnableBlurbehind
          (0x11 * 2 ^ 24 + 0x44 * 2 ^ 16 + 0x33 * 2 ^ 8 + 0x22)] :=
  (swap_channels_amended [] 9 Accent.accentEnableBlurbehind 0x11 0x22 0x33 0x44
      (by decide) (by decide) (by decide) (by decide) (by decide)).1
    (by decide)

/-! ## Claim theorems about the Scanner and the Decision Engine -/

/-- C3: during the `EnumWindows` scan, a top-level window causes the
Maximised preset to be assigned to its monitor, when the maximized-window
feature is enabled, if and only if it is visible, maximized, not cloaked,
not blacklisted, on the current virtual desktop and its monitor is a key of
the registry: if the predicate fails or the feature is disabled the presets
are untouched, other monitors are never touched, and a monitor already
holding Maximised keeps it (the per-monitor result is boolean — further
qualifying windows on the same monitor change nothing). -/
theorem scan_maximised_iff (cfg : Cfg) (env : Env) (main : Nat)
    (st : ScanState) (w : Nat) :
    (qualifies env st.1 w = true → cfg.maximised_enabled = true →
      lookupPreset (enumStep cfg env main st w).1 (env.monitor w)
        = some PresetRef.maximised)
    ∧ (qualifies env st.1 w = false → (enumStep cfg env main st w).1 = st.1)
    ∧ (cfg.maximised_enabled = false → (enumStep cfg env main st w).1 = st.1)
    ∧ (∀ m, m ≠ env.monitor w →
        lookupPreset (enumStep cfg env main st w).1 m = lookupPreset st.1 m)
    ∧ (lookupPreset st.1 (env.monitor w) = some PresetRef.maximised →
        lookupPreset (enumStep cfg env main st w).1 (env.monitor w)
          = some PresetRef.maximised) := by
  by_cases hq : qualifies env st.1 w = true
  · have hck : containsKey st.1 (env.monitor w) = true := by
      have h := hq
      simp only [qualifies, Bool.and_eq_true] at h
      exact h.2
    by_cases hme : cfg.maximised_enabled = true
    · refine ⟨fun _ _ => ?_, fun hq' => by rw [hq'] at hq; exact absurd hq (by simp),
        fun hme' => by rw [hme'] at hme; exact absurd hme (by simp),
        fun m hm => ?_, fun _ => ?_⟩
      · simp only [enumStep, hq, hme, if_true]
        exact lookupPreset_setPreset_self _ _ _ hck
      · simp only [enumStep, hq, hme, if_true]
        exact lookupPreset_setPreset_other _ _ _ _ hm
      · simp only [enumStep, hq, hme, if_true]
        exact lookupPreset_setPreset_self _ _ _ hck
    · have hme' : cfg.maximised_enabled = false := by
        cases h : cfg.maximised_enabled
        · rfl
        · exact absurd h hme
      refine ⟨fun _ hc => absurd hc hme, fun hq' => by rw [hq'] at hq; exact absurd hq (by simp),
        fun _ => ?_, fun m hm => ?_, fun hp => ?_⟩
      · simp [enumStep, hq, hme']
      · simp [enumStep, hq, hme']
      · simp [enumStep, hq, hme', hp]
  · have hq' : qualifies env st.1 w = false := by
      cases h : qualifies env st.1 w
      · rfl
      · exact absurd h hq
    refine ⟨fun hc => absurd hc hq, fun _ => ?_, fun _ => ?_, fun m hm => ?_, fun hp => ?_⟩
    · simp [enumStep, hq']
    · simp [enumStep, hq']
    · simp [enumStep, hq']
    · simp [enumStep, hq', hp]

/-- C3 witness: a concrete qualifying window (handle 2, on monitor 0 which
is a registry key) gets Maximised assigned by one scan step. -/
theorem scan_maximised_iff_witness :
    lookupPreset
        (enumStep ⟨true, PeekMode.disabled, false, false, false, false, false, false⟩
          ⟨fun _ => true, fun _ => true, fun _ => false, fun _ => false, fun _ => true,
            fun _ => 0, fun _ => "a.exe", fun _ => "x", "y", 0⟩
          5 ([(0, 5, PresetRef.regular)], false, 1) 2).1
        0
      = some PresetRef.maximised :=
  (scan_maximised_iff _ _ 5 ([(0, 5, PresetRef.regular)], false, 1) 2).1
    (by decide) (by decide)

/-- C9: the decision pass is deterministic — it depends only on the
configuration, the signal set, the registry contents and the per-window
attribute queries; two environments that agree on every queried attribute
(but may differ in ambient state such as the wall clock) produce the same
registry and peek flag. -/
theorem decide_deterministic (cfg : Cfg) (env env' : Env) (sig : Signals)
    (reg : Registry)
    (h1 : env.visible = env'.visible) (h2 : env.maximized = env'.maximized)
    (h3 : env.cloaked = env'.cloaked) (h4 : env.blacklisted = env'.blacklisted)
    (h5 : env.onCurrentDesktop = env'.onCurrentDesktop)
    (h6 : env.monitor = env'.monitor) (h7 : env.filename = env'.filename)
    (h8 : env.classname = env'.classname)
    (h9 : env.coreWindowClass = env'.coreWindowClass) :
    decide cfg env sig reg = decide cfg env' sig reg := by
  obtain ⟨v, mx, cl, bl, oc, mo, fn, cn, cw, t⟩ := env
  obtain ⟨v', mx', cl', bl', oc', mo', fn', cn', cw', t'⟩ := env'
  simp only at h1 h2 h3 h4 h5 h6 h7 h8 h9
  subst h1 h2 h3 h4 h5 h6 h7 h8 h9
  rfl

/-- C9 witness: two concrete environments differing only in the wall clock
yield identical decisions. -/
theorem decide_deterministic_witness :
    decide ⟨true, PeekMode.disabled, false, false, false, false, false, false⟩
        ⟨fun _ => true, fun _ => true, fun _ => false, fun _ => false, fun _ => true,
          fun _ => 0, fun _ => "a.exe", fun _ => "x", "y", 17⟩
        ⟨false, false, 1, 1, [2], 5⟩ [(0, 5, PresetRef.regular)]
      = decide ⟨true, PeekMode.disabled, false, false, false, false, false, false⟩
        ⟨fun _ => true, fun _ => true, fun _ => false, fun _ => false, fun _ => true,
          fun _ => 0, fun _ => "a.exe", fun _ => "x", "y", 985⟩
        ⟨false, false, 1, 1, [2], 5⟩ [(0, 5, PresetRef.regular)] :=
  decide_deterministic _ _ _ _ _ rfl rfl rfl rfl rfl rfl rfl rfl rfl

/-! ## Phase lemmas for the Decision Engine -/

theorem containsKey_scanPhase (cfg : Cfg) (env : Env) (sig : Signals)
    (reg1 : Registry) (peek0 : Bool) (m : Nat) :
    containsKey (scanPhase cfg env sig reg1 peek0).1 m = containsKey reg1 m := by
  unfold scanPhase
  by_cases hc : (cfg.maximised_enabled || cfg.peek = PeekMode.dynamic) = true
  · rw [if_pos hc]
    exact containsKey_foldl_enumStep cfg env sig.mainTaskbar sig.enumOrder
      (reg1, peek0, sig.hwnd0) m
  · rw [if_neg hc]

/-- C5: when the Timeline feature is enabled and the foreground window
matches the task-view/timeline signature, the Timeline preset is assigned to
every entry of the registry; since this rule is evaluated last it overrides
every earlier assignment (Maximised, Start/Cortana, peek override). -/
theorem timeline_overrides_all (cfg : Cfg) (env : Env) (sig : Signals)
    (reg : Registry) (hfg : sig.fg ≠ 0) (htl : cfg.timeline_enabled = true)
    (hmatch : timelineMatch cfg env sig.fg = true) :
    ∀ e ∈ (decide cfg env sig reg).1, e.2.2 = PresetRef.timeline := by
  intro e he
  have hd : (decide cfg env sig reg).1
      = setAllPresets
          (peekPhase cfg sig (fgPhase cfg env sig
            (scanPhase cfg env sig (setAllPresets reg PresetRef.regular)
              (cfg.peek = PeekMode.enabled)).1))
          PresetRef.timeline := by
    show timelinePhase cfg env sig _ = _
    unfold timelinePhase
    rw [if_pos hfg, if_pos (by simp [htl, hmatch])]
  rw [hd] at he
  exact preset_mem_setAllPresets _ _ _ he

/-- C5 witness: the Timeline theorem applied at a concrete state (older-OS
detection path, foreground window of class `MultitaskingViewFrame`). -/
theorem timeline_overrides_all_witness :
    (0, 5, PresetRef.timeline).2.2 = PresetRef.timeline :=
  timeline_overrides_all
    ⟨false, PeekMode.disabled, false, false, false, true, false, false⟩
    ⟨fun _ => true, fun _ => true, fun _ => false, fun _ => false, fun _ => true,
      fun _ => 0, fun _ => "a.exe", fun _ => "MultitaskingViewFrame", "y", 0⟩
    ⟨false, false, 1, 1, [], 5⟩ [(0, 5, PresetRef.regular)]
    (by decide) (by decide) (by decide)
    (0, 5, PresetRef.timeline) (by decide)

/-- Concrete state for the C4 counterexample: peek-override conditions all
hold, a qualifying maximized window (handle 2) sits on monitor 0, and the
foreground window also matches the (older-OS) Timeline signature. -/
def cfgPeekCx : Cfg := ⟨true, PeekMode.disabled, false, false, false, true, true, false⟩

def envPeekCx : Env :=
  ⟨fun _ => true, fun _ => true, fun _ => false, fun _ => false, fun _ => true,
    fun _ => 0, fun _ => "a.exe", fun _ => "MultitaskingViewFrame", "y", 0⟩

def sigPeekCx : Signals := ⟨true, false, 1, 1, [2], 5⟩

def regPeekCx : Registry := [(0, 5, PresetRef.regular)]

/-- C4 counterexample: with maximized-enabled, regular-on-peek and
peek_active all true and a qualifying maximized window on monitor 0, the
preset after the decision pass is Timeline, not Regular, because the
Timeline rule is evaluated after the peek override. -/
theorem peek_override_counterexample :
    (cfgPeekCx.maximised_enabled && cfgPeekCx.regular_on_peek
        && sigPeekCx.peek_active) = true
    ∧ qualifies envPeekCx regPeekCx 2 = true
    ∧ lookupPreset (decide cfgPeekCx envPeekCx sigPeekCx regPeekCx).1 0
        = some PresetRef.timeline
    ∧ ¬ lookupPreset (decide cfgPeekCx envPeekCx sigPeekCx regPeekCx).1 0
        = some PresetRef.regular := by
  decide

/-- C4 (amended): when the maximized feature, regular-on-peek and the
peek_active flag all hold, every registry entry ends the decision pass with
preset Regular — unless the Timeline rule (evaluated after the peek
override) fires, in which case it is Timeline; in either case the result is
never Maximised, Start or Cortana. -/
theorem peek_override_amended (cfg : Cfg) (env : Env) (sig : Signals)
    (reg : Registry) (hme : cfg.maximised_enabled = true)
    (hrp : cfg.regular_on_peek = true) (hpa : sig.peek_active = true) :
    (∀ e ∈ (decide cfg env sig reg).1,
        e.2.2 = PresetRef.regular ∨ e.2.2 = PresetRef.timeline)
    ∧ ((sig.fg = 0 ∨ (cfg.timeline_enabled && timelineMatch cfg env sig.fg) = false) →
        ∀ e ∈ (decide cfg env sig reg).1, e.2.2 = PresetRef.regular) := by
  have hpk : (cfg.maximised_enabled && cfg.regular_on_peek && sig.peek_active)
      = true := by
    simp [hme, hrp, hpa]
  have hd : (decide cfg env sig reg).1
      = timelinePhase cfg env sig
          (setAllPresets
            (fgPhase cfg env sig
              (scanPhase cfg env sig (setAllPresets reg PresetRef.regular)
                (cfg.peek = PeekMode.enabled)).1)
            PresetRef.regular) := by
    show timelinePhase cfg env sig (peekPhase cfg sig _) = _
    unfold peekPhase
    rw [if_pos hpk]
  constructor
  · intro e he
    rw [hd] at he
    unfold timelinePhase at he
    by_cases hfg : sig.fg ≠ 0
    · rw [if_pos hfg] at he
      by_cases htm : (cfg.timeline_enabled && timelineMatch cfg env sig.fg) = true
      · rw [if_pos htm] at he
        exact Or.inr (preset_mem_setAllPresets _ _ _ he)
      · rw [if_neg htm] at he
        exact Or.inl (preset_mem_setAllPresets _ _ _ he)
    · rw [if_neg hfg] at he
      exact Or.inl (preset_mem_setAllPresets _ _ _ he)
  · intro hno e he
    rw [hd] at he
    unfold timelinePhase at he
    rcases hno with hno | hno
    · rw [if_neg (by simp [hno])] at he
      exact preset_mem_setAllPresets _ _ _ he
    · by_cases hfg : sig.fg ≠ 0
      · rw [if_pos hfg, if_neg (by simp [hno])] at he
        exact preset_mem_setAllPresets _ _ _ he
      · rw [if_neg hfg] at he
        exact preset_mem_setAllPresets _ _ _ he

/-- C4 witness: the amended peek theorem applied at the concrete peek state
with the Timeline rule disabled — the surviving preset is Regular. -/
theorem peek_override_amended_witness :
    (0, 5, PresetRef.regular).2.2 = PresetRef.regular :=
  (peek_override_amended
      ⟨true, PeekMode.disabled, false, false, false, false, true, false⟩
      ⟨fun _ => true, fun _ => true, fun _ => false, fun _ => false, fun _ => true,
        fun _ => 0, fun _ => "a.exe", fun _ => "x", "y", 0⟩
      ⟨true, false, 1, 1, [2], 5⟩ [(0, 5, PresetRef.regular)]
      rfl rfl rfl).2
    (Or.inr (by decide)) (0, 5, PresetRef.regular) (by decide)

/-- Concrete state for the C1 counterexample: the foreground window (which
is also the window recorded in the global `hwnd`) is the visible, maximized,
non-cloaked, non-blacklisted, on-desktop process `SearchUI.exe`;
search-integration is enabled, the start menu is closed and the foreground
window is not cloaked — all conditions of the claim's Cortana branch. -/
def cfgStartCx : Cfg := ⟨false, PeekMode.disabled, false, true, false, false, false, false⟩

def envStartCx : Env :=
  ⟨fun _ => true, fun _ => true, fun _ => false, fun _ => false, fun _ => true,
    fun _ => 0, fun _ => "SearchUI.exe", fun _ => "x", "y", 0⟩

def sigStartCx : Signals := ⟨false, false, 1, 1, [], 5⟩

def regStartCx : Registry := [(0, 5, PresetRef.regular)]

/-- C1 counterexample: although every condition of the claim's Cortana
branch holds (search executable in the foreground, search-integration
enabled, start menu closed, window not cloaked, window qualifying), the
foreground monitor's preset after the decision pass is Start, not Cortana:
the trailing start-menu conditional unconditionally overwrites the first
conditional's assignment. -/
theorem start_cortana_counterexample :
    (cfgStartCx.cortana_enabled = true ∧ sigStartCx.start_opened = false
      ∧ envStartCx.cloaked sigStartCx.fg = false
      ∧ isSearchExe (envStartCx.filename sigStartCx.fg) = true
      ∧ sigStartCx.hwnd0 = sigStartCx.fg
      ∧ qualifies envStartCx regStartCx sigStartCx.fg = true
      ∧ sigStartCx.fg ≠ 0
      ∧ containsKey regStartCx (envStartCx.monitor sigStartCx.fg) = true)
    ∧ lookupPreset (decide cfgStartCx envStartCx sigStartCx regStartCx).1
        (envStartCx.monitor sigStartCx.fg) = some PresetRef.start
    ∧ ¬ lookupPreset (decide cfgStartCx envStartCx sigStartCx regStartCx).1
        (envStartCx.monitor sigStartCx.fg) = some PresetRef.cortana := by
  decide

/-- C1 (amended): when the foreground window exists and its monitor is a
registry key, and the window recorded in the global `hwnd` variable (the
window the code actually tests, which may coincide with the foreground
window) is maximized, visible, non-cloaked, non-blacklisted and on the
current virtual desktop, then — provided neither the peek override nor the
Timeline rule fires afterwards — the foreground monitor's preset after the
pass is Maximised if start-menu integration is enabled and the start_opened
flag is true, and Start otherwise; the Cortana preset never survives this
block, because the trailing start-menu conditional always overwrites it. -/
theorem start_cortana_amended (cfg : Cfg) (env : Env) (sig : Signals)
    (reg : Registry)
    (hfg : (sig.fg != 0 && containsKey reg (env.monitor sig.fg)) = true)
    (hq : qualifies env reg sig.hwnd0 = true)
    (hpk : (cfg.maximised_enabled && cfg.regular_on_peek && sig.peek_active)
      = false)
    (htl : (cfg.timeline_enabled && timelineMatch cfg env sig.fg) = false) :
    lookupPreset (decide cfg env sig reg).1 (env.monitor sig.fg)
      = some (if cfg.start_enabled && sig.start_opened then PresetRef.maximised
          else PresetRef.start) := by
  have hkeys : ∀ m,
      containsKey (scanPhase cfg env sig (setAllPresets reg PresetRef.regular)
          (cfg.peek = PeekMode.enabled)).1 m
        = containsKey reg m := by
    intro m
    rw [containsKey_scanPhase, containsKey_setAllPresets]
  have hfg2 : (sig.fg != 0
      && containsKey (scanPhase cfg env sig (setAllPresets reg PresetRef.regular)
          (cfg.peek = PeekMode.enabled)).1 (env.monitor sig.fg)) = true := by
    rw [hkeys]
    exact hfg
  have hq2 : qualifies env
      (scanPhase cfg env sig (setAllPresets reg PresetRef.regular)
        (cfg.peek = PeekMode.enabled)).1 sig.hwnd0 = true := by
    rw [qualifies_congr_keys env reg _ sig.hwnd0 hkeys]
    exact hq
  have hck2 : containsKey
      (scanPhase cfg env sig (setAllPresets reg PresetRef.regular)
        (cfg.peek = PeekMode.enabled)).1 (env.monitor sig.fg) = true := by
    rw [hkeys]
    have h := hfg
    rw [Bool.and_eq_true] at h
    exact h.2
  have hfg0 : sig.fg ≠ 0 := by
    have h := hfg
    rw [Bool.and_eq_true] at h
    simpa using h.1
  have hfinal : ∀ (rA : Registry),
      containsKey rA (env.monitor sig.fg) = true →
      lookupPreset
          (if cfg.start_enabled && sig.start_opened then
            setPreset rA (env.monitor sig.fg) PresetRef.maximised
          else
            setPreset rA (env.monitor sig.fg) PresetRef.start)
          (env.monitor sig.fg)
        = some (if cfg.start_enabled && sig.start_opened then PresetRef.maximised
            else PresetRef.start) := by
    intro rA hk
    by_cases hs : (cfg.start_enabled && sig.start_opened) = true <;>
      simp [hs, lookupPreset_setPreset_self _ _ _ hk]
  have hlook : lookupPreset
      (fgPhase cfg env sig
        (scanPhase cfg env sig (setAllPresets reg PresetRef.regular)
          (cfg.peek = PeekMode.enabled)).1)
      (env.monitor sig.fg)
      = some (if cfg.start_enabled && sig.start_opened then PresetRef.maximised
          else PresetRef.start) := by
    unfold fgPhase
    rw [if_pos hfg2, if_pos hq2]
    by_cases hcort : (cfg.cortana_enabled && !sig.start_opened
        && !env.cloaked sig.fg) = true <;>
      by_cases hsearch : isSearchExe (env.filename sig.fg) = true <;>
        simp only [hcort, hsearch, if_true, if_false, Bool.false_eq_true] <;>
          first
          | exact hfinal _ (by rw [containsKey_setPreset]; exact hck2)
          | exact hfinal _ hck2
  show lookupPreset (timelinePhase cfg env sig (peekPhase cfg sig _)) _ = _
  unfold peekPhase timelinePhase
  rw [if_pos hfg0, if_neg (by simp [htl]), if_neg (by simp [hpk])]
  exact hlook

/-- C1 witness: the amended theorem applied at the counterexample state —
start-menu integration disabled, so the surviving preset is Start. -/
theorem start_cortana_amended_witness :
    lookupPreset (decide cfgStartCx envStartCx sigStartCx regStartCx).1
        (envStartCx.monitor sigStartCx.fg)
      = some (if cfgStartCx.start_enabled && sigStartCx.start_opened then
          PresetRef.maximised
        else PresetRef.start) :=
  start_cortana_amended cfgStartCx envStartCx sigStartCx regStartCx
    (by decide) (by decide) (by decide) (by decide)

/-! ## Claim theorems about the Monitor Registry rebuild -/

/-- Concrete environment for the C2 counterexample (every window maps to
monitor 0, which is what `MonitorFromWindow(nullptr, MONITOR_DEFAULTTOPRIMARY)`
does for the null handle). -/
def envRebuildCx : Env :=
  ⟨fun _ => true, fun _ => true, fun _ => false, fun _ => false, fun _ => true,
    fun _ => 0, fun _ => "a.exe", fun _ => "x", "y", 0⟩

/-- C2 counterexample: a rebuild in which the primary-taskbar lookup fails
(the found main taskbar is the null window, handle 0) and no secondary
taskbar exists does not leave the registry empty — it contains one entry for
the null surface, keyed by the null window's monitor. -/
theorem rebuild_empty_counterexample :
    refreshHandles envRebuildCx [(1, 5, PresetRef.maximised)] 0 []
      = [(0, 0, PresetRef.regular)]
    ∧ refreshHandles envRebuildCx [(1, 5, PresetRef.maximised)] 0 [] ≠ [] := by
  decide

/-- C2 (amended): after a rebuild in which the primary-taskbar lookup fails
(null main-taskbar handle), the registry is not empty: it always contains an
entry keyed by the null window's monitor, no entry from before the rebuild
survives, and every entry holds the Regular preset and one of the surfaces
inserted by this rebuild — so subsequent appearance application iterates
over these rebuilt entries rather than being a no-op. -/
theorem rebuild_no_primary_amended (env : Env) (old : Registry)
    (secs : List Nat) :
    containsKey (refreshHandles env old 0 secs) (env.monitor 0) = true
    ∧ refreshHandles env old 0 secs ≠ []
    ∧ ∀ e ∈ refreshHandles env old 0 secs,
        e.2.2 = PresetRef.regular ∧ e.2.1 ∈ 0 :: secs
          ∧ e.1 = env.monitor e.2.1 := by
  have h1 : containsKey (refreshHandles env old 0 secs) (env.monitor 0) = true := by
    rw [containsKey_refreshHandles]
    simp
  refine ⟨h1, ?_, fun e he => entries_refreshHandles env old 0 secs e he⟩
  intro hempty
  rw [hempty] at h1
  simp [containsKey] at h1

/-- C2 witness: the amended rebuild theorem applied at the concrete failed
lookup. -/
theorem rebuild_no_primary_amended_witness :
    containsKey
        (refreshHandles envRebuildCx [(1, 5, PresetRef.maximised)] 0 [])
        (envRebuildCx.monitor 0)
      = true :=
  (rebuild_no_primary_amended envRebuildCx [(1, 5, PresetRef.maximised)] []).1

/-- C8: every rebuild is wholesale — the result does not depend on the prior
registry (the map is cleared first), a monitor is a key of the rebuilt
registry exactly when it is the monitor of one of the surfaces found by this
rebuild, and every entry holds the Regular preset, one of the found
surfaces, keyed by that surface's monitor; hence no entry from before the
rebuild survives. -/
theorem rebuild_wholesale (env : Env) (old old' : Registry) (main : Nat)
    (secs : List Nat) :
    refreshHandles env old main secs = refreshHandles env old' main secs
    ∧ (∀ m, containsKey (refreshHandles env old main secs) m
        = (main :: secs).any (fun s => env.monitor s == m))
    ∧ ∀ e ∈ refreshHandles env old main secs,
        e.2.2 = PresetRef.regular ∧ e.2.1 ∈ main :: secs
          ∧ e.1 = env.monitor e.2.1 :=
  ⟨rfl, fun m => containsKey_refreshHandles env old main secs m,
    fun e he => entries_refreshHandles env old main secs e he⟩

/-- Concrete environment for the C8 witness: window `w` sits on monitor
`w + 10`. -/
def envRebuildW : Env :=
  ⟨fun _ => true, fun _ => true, fun _ => false, fun _ => false, fun _ => true,
    fun w => w + 10, fun _ => "a.exe", fun _ => "x", "y", 0⟩

/-- C8 witness: a rebuild from a stale two-entry registry and a rebuild from
an empty registry give the same result — the prior contents are irrelevant. -/
theorem rebuild_wholesale_witness :
    refreshHandles envRebuildW [(99, 1, PresetRef.cortana), (98, 2, PresetRef.start)] 4 [6]
      = refreshHandles envRebuildW [] 4 [6] :=
  (rebuild_wholesale envRebuildW
      [(99, 1, PresetRef.cortana), (98, 2, PresetRef.start)] [] 4 [6]).1

end TTB
